import Mathlib

/-!
Shallow embedding of the calculator engine in `src/project/src/App.tsx`
(repository S-Priyadharshini-1607/calculator).

Modelling conventions:
* JavaScript numbers are modelled as `Option ℚ` (`JSNum`): `some q` is a
  finite value under the exact-rational idealization of binary floating
  point; `none` stands for the non-finite results (`NaN`, and the
  infinities JavaScript division by zero would produce).  All arithmetic
  reached by the verified claims stays on small exact values, where
  rational and double arithmetic agree.
* TypeScript `number | null` fields (`previousValue`, `lastOperand`)
  become `Option JSNum`: the outer `none` is the TS `null`, `some none`
  is a stored `NaN`.
* The operator strings `'+' '-' '×' '÷'` become the inductive `Op`;
  the UI and keyboard adapter only ever pass these four strings.
* `parseFloat` is modelled on sign/digits/decimal-point prefixes, the
  only shapes the engine's display strings take (exponent notation and
  whitespace skipping never occur in engine displays).
* `Number.prototype.toString` is modelled as exact decimal printing
  (digits for integers, decimal expansion—up to 20 fractional digits—
  otherwise); the claims only ever evaluate it on small integers.
-/

namespace Calculator

/-- The four operator symbols `'+' '-' '×' '÷'` used by the app. -/
inductive Op where
  | add
  | sub
  | mul
  | div
deriving DecidableEq, Repr

/-- A JavaScript number: `some q` finite, `none` non-finite (NaN/∞). -/
abbrev JSNum := Option ℚ

/-!
Rational arithmetic is written through `Rat.divInt` (which normalizes
and reduces in the kernel, unlike Batteries' `@[irreducible]`
`Rat.add`/`Rat.sub`/`Rat.mul`/`Rat.div`); the lemmas `qadd_eq`,
`qsub_eq`, `qmul_eq`, `qdiv_eq` below prove each one is exactly the
corresponding field operation on `ℚ`.
-/

/-- Rational addition, as a normalized fraction. -/
def qadd (a b : ℚ) : ℚ := Rat.divInt (a.num * b.den + b.num * a.den) (a.den * b.den)

/-- Rational subtraction, as a normalized fraction. -/
def qsub (a b : ℚ) : ℚ := Rat.divInt (a.num * b.den - b.num * a.den) (a.den * b.den)

/-- Rational multiplication, as a normalized fraction. -/
def qmul (a b : ℚ) : ℚ := Rat.divInt (a.num * b.num) (a.den * b.den)

/-- Rational division, as a normalized fraction (only used under the
engine's `inputValue === 0` guards, so the divisor is nonzero). -/
def qdiv (a b : ℚ) : ℚ := Rat.divInt (a.num * b.den) (a.den * b.num)

theorem qadd_eq (a b : ℚ) : qadd a b = a + b := by
  unfold qadd
  conv_rhs => rw [← Rat.num_divInt_den a, ← Rat.num_divInt_den b]
  rw [Rat.divInt_add_divInt _ _ (by exact_mod_cast a.den_nz) (by exact_mod_cast b.den_nz)]

theorem qsub_eq (a b : ℚ) : qsub a b = a - b := by
  unfold qsub
  conv_rhs => rw [← Rat.num_divInt_den a, ← Rat.num_divInt_den b]
  rw [Rat.divInt_sub_divInt _ _ (by exact_mod_cast a.den_nz) (by exact_mod_cast b.den_nz)]

theorem qmul_eq (a b : ℚ) : qmul a b = a * b := by
  unfold qmul
  conv_rhs => rw [← Rat.num_divInt_den a, ← Rat.num_divInt_den b]
  rw [Rat.divInt_mul_divInt _ _ (by exact_mod_cast a.den_nz) (by exact_mod_cast b.den_nz)]

theorem qdiv_eq (a b : ℚ) (hb : b ≠ 0) : qdiv a b = a / b := by
  unfold qdiv
  rw [div_eq_mul_inv]
  conv_rhs => rw [← Rat.num_divInt_den a, Rat.inv_def' b]
  rw [Rat.divInt_mul_divInt _ _ (by exact_mod_cast a.den_nz) (by exact_mod_cast Rat.num_ne_zero.mpr hb)]

/-- JS `a + b` (NaN propagates). -/
def jadd : JSNum → JSNum → JSNum
  | some a, some b => some (qadd a b)
  | _, _ => none

/-- JS `a - b` (NaN propagates). -/
def jsub : JSNum → JSNum → JSNum
  | some a, some b => some (qsub a b)
  | _, _ => none

/-- JS `a * b` (NaN propagates). -/
def jmul : JSNum → JSNum → JSNum
  | some a, some b => some (qmul a b)
  | _, _ => none

/-- JS `a / b` (NaN propagates; division by zero yields a non-finite
value — ±Infinity or NaN — modelled as `none`; the engine guards every
division with an `inputValue === 0` check, so this case is never the
value actually stored on the code's own paths). -/
def jdiv : JSNum → JSNum → JSNum
  | some a, some b => if b = 0 then none else some (qdiv a b)
  | _, _ => none

/-- The `switch (operation)` arithmetic table shared by
`performOperation` and `calculate` (lines 121-130 / 205-214):
`+` sum, `-` difference, `×` product, `÷` quotient. -/
def applyBin : Op → JSNum → JSNum → JSNum
  | Op.add, a, b => jadd a b
  | Op.sub, a, b => jsub a b
  | Op.mul, a, b => jmul a b
  | Op.div, a, b => jdiv a b

/-- Value of a list of decimal digit characters, most significant first. -/
def digitsVal (cs : List Char) : ℕ :=
  cs.foldl (fun a c => 10 * a + (c.toNat - 48)) 0

/-- JS `parseFloat` on the display strings the engine produces:
an optional sign followed by digits, optionally a decimal point and
more digits; the longest such prefix is the value (integer and
fractional digits over a power-of-ten denominator), and a string with
no such prefix (e.g. `"Error"`, `""`, `"-"`) parses to NaN (`none`). -/
def jsParseFloat (v : String) : JSNum :=
  let (neg, cs) : Bool × List Char :=
    match v.toList with
    | '-' :: rest => (true, rest)
    | '+' :: rest => (false, rest)
    | cs => (false, cs)
  let intDigits := cs.takeWhile Char.isDigit
  let rest := cs.drop intDigits.length
  let fracDigits : List Char :=
    match rest with
    | '.' :: r => r.takeWhile Char.isDigit
    | _ => []
  if intDigits.isEmpty ∧ fracDigits.isEmpty then none
  else
    let mag : ℤ := digitsVal (intDigits ++ fracDigits)
    some (Rat.divInt (if neg then -mag else mag) ((10 ^ fracDigits.length : ℕ) : ℤ))

/-- Decimal digits of `n` (fuel-driven; `fuel` bounds the digit count). -/
def natDec (fuel n : ℕ) : String :=
  match fuel with
  | 0 => ""
  | fuel + 1 =>
    if n < 10 then String.singleton (Char.ofNat (48 + n))
    else natDec fuel (n / 10) ++ String.singleton (Char.ofNat (48 + n % 10))

/-- Decimal digits of an integer, with a leading `-` when negative. -/
def intDec (i : ℤ) : String :=
  if i < 0 then "-" ++ natDec i.natAbs i.natAbs else natDec i.natAbs i.natAbs

/-- Fractional decimal digits of `r / d` (stops at the given fuel or
when the remainder is exhausted). -/
def fracDec (fuel r d : ℕ) : String :=
  match fuel with
  | 0 => ""
  | fuel + 1 =>
    if r = 0 then ""
    else String.singleton (Char.ofNat (48 + r * 10 / d)) ++ fracDec fuel (r * 10 % d) d

/-- JS `Number.prototype.toString` on a finite value, under the exact
idealization: integers print as their digits, non-integers print their
decimal expansion to at most 20 fractional digits (JS prints the
shortest representation of the underlying double; on the small exact
values the claims evaluate, the two agree). -/
def ratToString (q : ℚ) : String :=
  if q.den = 1 then intDec q.num
  else
    (if q < 0 then "-" else "") ++
      natDec q.num.natAbs (q.num.natAbs / q.den) ++ "." ++
      fracDec 20 (q.num.natAbs % q.den) q.den

/-- `result.toString()` for a JS number (`NaN.toString()` is `"NaN"`;
the non-finite case only arises from computing on an unparseable
display). -/
def jsNumToString : JSNum → String
  | some q => ratToString q
  | none => "NaN"

/-- The `CalculatorState` interface (App.tsx lines 4-11). -/
structure CalculatorState where
  display : String
  previousValue : Option JSNum
  operation : Option Op
  waitingForNewValue : Bool
  lastOperation : Option Op
  lastOperand : Option JSNum
deriving DecidableEq, Repr

/-- The `useState` initial value (lines 14-21). -/
def initialState : CalculatorState :=
  { display := "0"
    previousValue := none
    operation := none
    waitingForNewValue := false
    lastOperation := none
    lastOperand := none }

/-- `inputNumber` (lines 42-64): a digit press. -/
def inputNumber (num : String) (s : CalculatorState) : CalculatorState :=
  if s.waitingForNewValue then
    { s with display := num, waitingForNewValue := false }
  else if s.display = "0" ∨ s.display = "Error" then
    { s with display := num }
  else
    { s with display := s.display ++ num }

/-- Whether the display contains a decimal point
(`display.indexOf('.') === -1` is its negation, line 76). -/
def hasDot (s : String) : Bool :=
  s.toList.contains '.'

/-- `inputDecimal` (lines 66-85): the `.` press. -/
def inputDecimal (s : CalculatorState) : CalculatorState :=
  if s.waitingForNewValue then
    { s with display := "0.", waitingForNewValue := false }
  else if ¬ hasDot s.display then
    { s with display := s.display ++ "." }
  else
    s

/-- `clear` (lines 87-96): unconditional reset to the initial state. -/
def clear (_ : CalculatorState) : CalculatorState :=
  initialState

/-- JS `previousValue || 0` (line 118): `null` and `NaN` are falsy and
become `0`; a finite value is unchanged (`0 || 0` is still `0`). -/
def jsOrZero : Option JSNum → JSNum
  | some (some q) => some q
  | _ => some 0

/-- `performOperation` (lines 98-157): an operator press.  Stages the
first operand, substitutes the operator when no new operand was typed,
and otherwise chains: computes the pending operation (with the inline
division-by-zero guard of lines 131-140) and stages its result. -/
def performOperation (nextOperation : Op) (s : CalculatorState) : CalculatorState :=
  let inputValue := jsParseFloat s.display
  if s.previousValue = none then
    { s with previousValue := some inputValue
             operation := some nextOperation
             waitingForNewValue := true }
  else if s.operation.isSome ∧ s.waitingForNewValue then
    { s with operation := some nextOperation }
  else
    let currentValue := jsOrZero s.previousValue
    match s.operation with
    | none => s
    | some op =>
      if op = Op.div ∧ inputValue = some 0 then
        { s with display := "Error"
                 previousValue := none
                 operation := none
                 waitingForNewValue := true }
      else
        let result := applyBin op currentValue inputValue
        { s with display := jsNumToString result
                 previousValue := some result
                 operation := some nextOperation
                 waitingForNewValue := true
                 lastOperation := some op
                 lastOperand := some inputValue }

/-- `calculate` (lines 159-241): the `=` press.  With an operation
pending it commits `previousValue <op> inputValue` (division-by-zero
guard of lines 215-224); with none pending it repeats the recorded last
operation against the current display (guard of lines 179-188), and is
a no-op when nothing was recorded. -/
def calculate (s : CalculatorState) : CalculatorState :=
  let inputValue := jsParseFloat s.display
  match s.previousValue, s.operation with
  | some pv, some op =>
    if op = Op.div ∧ inputValue = some 0 then
      { s with display := "Error"
               previousValue := none
               operation := none
               waitingForNewValue := true }
    else
      let result := applyBin op pv inputValue
      { s with display := jsNumToString result
               previousValue := none
               operation := none
               waitingForNewValue := true
               lastOperation := some op
               lastOperand := some inputValue }
  | _, _ =>
    match s.lastOperation, s.lastOperand with
    | some lop, some lod =>
      if lop = Op.div ∧ lod = some 0 then
        { s with display := "Error", waitingForNewValue := true }
      else
        let result := applyBin lop inputValue lod
        { s with display := jsNumToString result, waitingForNewValue := true }
    | _, _ => s

/-- JS `display.slice(0, -1)`: drop the last character. -/
def sliceDropLast (v : String) : String :=
  String.mk v.toList.dropLast

/-- The keyboard `Backspace` handler (lines 264-277): strip the last
character when the display is longer than one character and not
`"Error"`, otherwise reset the display to `"0"`. -/
def backspaceKey (s : CalculatorState) : CalculatorState :=
  if 1 < s.display.length ∧ s.display ≠ "Error" then
    { s with display := sliceDropLast s.display }
  else
    { s with display := "0" }

/-- The on-screen backspace button (line 345):
`display.slice(0, -1) || '0'` — the empty string is falsy. -/
def backspaceButton (s : CalculatorState) : CalculatorState :=
  { s with display :=
      if sliceDropLast s.display = "" then "0" else sliceDropLast s.display }

/-- Fuel-driven base-10 logarithm: number of divisions by 10 until the
argument drops below 10. -/
def natLog10 (fuel n : ℕ) : ℕ :=
  match fuel with
  | 0 => 0
  | fuel + 1 => if n < 10 then 0 else natLog10 fuel (n / 10) + 1

/-- JS `num.toExponential(6)` (line 31), on the branch's domain
`|num| > 999999999999`: sign, leading digit, six rounded fractional
mantissa digits, and the positive decimal exponent.  Rounding is
half-up where the double rounds to nearest — indistinguishable on this
model's exact values. -/
def toExponential6 (q : ℚ) : String :=
  if q = 0 then "0.000000e+0"
  else
    let n := q.num.natAbs * 10 ^ 6
    let e := natLog10 q.num.natAbs (q.num.natAbs / q.den)
    let d := q.den * 10 ^ e
    let r := (2 * n + d) / (2 * d)
    let (r, e) := if 10 ^ 7 ≤ r then (r / 10, e + 1) else (r, e)
    let ds := natDec r r
    (if q < 0 then "-" else "") ++ ds.take 1 ++ "." ++ ds.drop 1 ++
      "e+" ++ natDec e e

/-- Insert `','` after every third digit, on a reversed digit list. -/
def groupRev (cs : List Char) (k : ℕ) : List Char :=
  match cs with
  | [] => []
  | c :: cs => if k = 3 then ',' :: c :: groupRev cs 1 else c :: groupRev cs (k + 1)

/-- `'en-US'` thousands grouping of a digit string. -/
def groupDigits (s : String) : String :=
  String.mk (groupRev s.toList.reverse 0).reverse

/-- JS `num.toLocaleString('en-US', { maximumFractionDigits: 8 })`
(line 36), on the branch's domain `1000 ≤ |num| ≤ 999999999999`:
comma-grouped integer part and at most eight fractional digits
(truncated where the double representation rounds — invisible on this
model's exact values). -/
def toLocaleEnUS (q : ℚ) : String :=
  let ip := q.num.natAbs / q.den
  let frac := fracDec 8 (q.num.natAbs % q.den) q.den
  (if q < 0 then "-" else "") ++ groupDigits (natDec ip ip) ++
    (if frac = "" then "" else "." ++ frac)

/-- `formatDisplay` (lines 23-40): presentation-only formatting of the
display string. -/
def formatDisplay (value : String) : String :=
  if value = "Error" then value
  else
    match jsParseFloat value with
    | none => value
    | some num =>
      if 999999999999 < |num| then toExponential6 num
      else if 1000 ≤ |num| then toLocaleEnUS num
      else value

/-- A discrete input event of the adapter contract: each constructor is
mapped 1:1 onto an engine operation.  Both backspace code paths (the
keyboard handler and the on-screen button) are included. -/
inductive Ev where
  | digit (d : Fin 10)
  | dec
  | opEv (o : Op)
  | eq
  | clearEv
  | backKey
  | backBtn
deriving DecidableEq, Repr

/-- The single-character string a digit key passes to `inputNumber`. -/
def digitStr (d : Fin 10) : String :=
  String.singleton (Char.ofNat (48 + d.val))

/-- Dispatch of one input event to the engine (the adapter's 1:1
mapping). -/
def step : Ev → CalculatorState → CalculatorState
  | Ev.digit d, s => inputNumber (digitStr d) s
  | Ev.dec, s => inputDecimal s
  | Ev.opEv o, s => performOperation o s
  | Ev.eq, s => calculate s
  | Ev.clearEv, s => clear s
  | Ev.backKey, s => backspaceKey s
  | Ev.backBtn, s => backspaceButton s

/-- Run an event sequence from the initial state, in arrival order. -/
def run (evs : List Ev) : CalculatorState :=
  evs.foldl (fun s e => step e s) initialState

/-- Number of decimal points in a display string. -/
def dotCount (v : String) : ℕ :=
  v.toList.count '.'

/-!  Claim theorems. -/

/-- C1: in any state with a pending `÷` and a newly entered right
operand (`waitingForNewValue` is off), if the display parses to `0`
then both `performOperation` (with any next operator) and `calculate`
set the display to exactly the `"Error"` sentinel — never a non-finite
numeric rendering — clear `previousValue` and `operation`, set
`waitingForNewValue`, and leave `lastOperation`/`lastOperand`
untouched. -/
theorem c1_division_by_zero_error (s : CalculatorState) (p : JSNum) (o : Op)
    (h1 : s.previousValue = some p) (h2 : s.operation = some Op.div)
    (h3 : s.waitingForNewValue = false) (h4 : jsParseFloat s.display = some 0) :
    performOperation o s =
      { s with display := "Error", previousValue := none, operation := none,
               waitingForNewValue := true } ∧
    calculate s =
      { s with display := "Error", previousValue := none, operation := none,
               waitingForNewValue := true } := by
  constructor
  · simp [performOperation, h1, h2, h3, h4]
  · simp [calculate, h1, h2, h4]

/-- Witness for `c1_division_by_zero_error` at the concrete state
reached by `8`, `+`, `2`, `=`, `÷`, `0` (pending `÷`, display `"0"`,
previous repeat data retained). -/
theorem c1_division_by_zero_error_witness :
    performOperation Op.add
        { display := "0", previousValue := some (some 10), operation := some Op.div,
          waitingForNewValue := false, lastOperation := some Op.add,
          lastOperand := some (some 2) } =
      { display := "Error", previousValue := none, operation := none,
        waitingForNewValue := true, lastOperation := some Op.add,
        lastOperand := some (some 2) } ∧
    calculate
        { display := "0", previousValue := some (some 10), operation := some Op.div,
          waitingForNewValue := false, lastOperation := some Op.add,
          lastOperand := some (some 2) } =
      { display := "Error", previousValue := none, operation := none,
        waitingForNewValue := true, lastOperation := some Op.add,
        lastOperand := some (some 2) } :=
  c1_division_by_zero_error
    { display := "0", previousValue := some (some 10), operation := some Op.div,
      waitingForNewValue := false, lastOperation := some Op.add,
      lastOperand := some (some 2) }
    (some 10) Op.add rfl rfl rfl (by decide)

/-- C3: from the initial state, `5`, `+`, `3`, `=` displays `"8"`; a
further `=` with no intervening input repeats the completed `+ 3`
against the displayed `8`, displays `"11"`, and waits for a new
value. -/
theorem c3_repeat_semantics :
    (run [Ev.digit 5, Ev.opEv Op.add, Ev.digit 3, Ev.eq]).display = "8" ∧
    (run [Ev.digit 5, Ev.opEv Op.add, Ev.digit 3, Ev.eq]).lastOperation = some Op.add ∧
    (run [Ev.digit 5, Ev.opEv Op.add, Ev.digit 3, Ev.eq]).lastOperand = some (some 3) ∧
    (run [Ev.digit 5, Ev.opEv Op.add, Ev.digit 3, Ev.eq, Ev.eq]).display = "11" ∧
    (run [Ev.digit 5, Ev.opEv Op.add, Ev.digit 3, Ev.eq, Ev.eq]).waitingForNewValue = true := by
  decide

/-- C4: from the initial state, `3`, `+`, `4`, `×`, `2`, `=` displays
`"14"`; pressing `×` with `3 + 4` pending first computes `7`, displays
it, and stages it as the operand of the pending `×`. -/
theorem c4_chaining_semantics :
    (run [Ev.digit 3, Ev.opEv Op.add, Ev.digit 4, Ev.opEv Op.mul]).display = "7" ∧
    (run [Ev.digit 3, Ev.opEv Op.add, Ev.digit 4, Ev.opEv Op.mul]).previousValue = some (some 7) ∧
    (run [Ev.digit 3, Ev.opEv Op.add, Ev.digit 4, Ev.opEv Op.mul]).operation = some Op.mul ∧
    (run [Ev.digit 3, Ev.opEv Op.add, Ev.digit 4, Ev.opEv Op.mul]).waitingForNewValue = true ∧
    (run [Ev.digit 3, Ev.opEv Op.add, Ev.digit 4, Ev.opEv Op.mul, Ev.digit 2, Ev.eq]).display = "14" := by
  decide

/-- C5: with an operation pending (operand staged in `previousValue`,
per the data model's reading of "pending") and `waitingForNewValue`
set, a further operator press only replaces the pending operator —
display, staged operand and everything else are unchanged; concretely,
`5`, `+`, `×` leaves `5` staged with pending `×`, and `2`, `=` then
displays `"10"`. -/
theorem c5_operator_substitution :
    (∀ (s : CalculatorState) (p : JSNum) (o : Op),
        s.previousValue = some p → s.operation.isSome = true →
        s.waitingForNewValue = true →
        performOperation o s = { s with operation := some o }) ∧
    (run [Ev.digit 5, Ev.opEv Op.add, Ev.opEv Op.mul]).display = "5" ∧
    (run [Ev.digit 5, Ev.opEv Op.add, Ev.opEv Op.mul]).previousValue = some (some 5) ∧
    (run [Ev.digit 5, Ev.opEv Op.add, Ev.opEv Op.mul]).operation = some Op.mul ∧
    (run [Ev.digit 5, Ev.opEv Op.add, Ev.opEv Op.mul, Ev.digit 2, Ev.eq]).display = "10" := by
  refine ⟨?_, by decide, by decide, by decide, by decide⟩
  intro s p o h1 h2 h3
  simp [performOperation, h1, h2, h3]

/-- Witness for `c5_operator_substitution`: the substitution clause at
the state reached by `5`, `+`. -/
theorem c5_operator_substitution_witness :
    performOperation Op.mul
        { display := "5", previousValue := some (some 5), operation := some Op.add,
          waitingForNewValue := true, lastOperation := none, lastOperand := none } =
      { display := "5", previousValue := some (some 5), operation := some Op.mul,
        waitingForNewValue := true, lastOperation := none, lastOperand := none } :=
  c5_operator_substitution.1
    { display := "5", previousValue := some (some 5), operation := some Op.add,
      waitingForNewValue := true, lastOperation := none, lastOperand := none }
    (some 5) Op.mul rfl rfl rfl

/-- C9: the display formatter is the identity on `"Error"`, on any
string that does not parse to a number, and on any string parsing to a
value of magnitude below `1000`. -/
theorem c9_formatter_identity (v : String)
    (h : v = "Error" ∨ jsParseFloat v = none ∨
         ∃ r : ℚ, jsParseFloat v = some r ∧ |r| < 1000) :
    formatDisplay v = v := by
  rcases h with h | h | ⟨r, hr, hlt⟩
  · simp [formatDisplay, h]
  · unfold formatDisplay
    split
    · rfl
    · rw [h]
  · unfold formatDisplay
    split
    · rfl
    · rw [hr]
      have h1 : ¬ (999999999999 : ℚ) < |r| := by
        intro hc
        linarith
      have h2 : ¬ (1000 : ℚ) ≤ |r| := by
        intro hc
        linarith
      simp [h1, h2]

/-- Witness for `c9_formatter_identity` on the small value `"12.5"`
and the unparseable `"Error"`. -/
theorem c9_formatter_identity_witness :
    formatDisplay "12.5" = "12.5" ∧ formatDisplay "Error" = "Error" :=
  ⟨c9_formatter_identity "12.5"
      (Or.inr (Or.inr ⟨Rat.divInt 25 2, by decide, by decide⟩)),
    c9_formatter_identity "Error" (Or.inl rfl)⟩

/-- On a display of at least two characters, dropping the last
character leaves a nonempty string. -/
theorem sliceDropLast_ne_empty (v : String) (h : 1 < v.length) :
    sliceDropLast v ≠ "" := by
  intro hc
  have hd : v.toList.dropLast = [] := congrArg String.data hc
  have hl : v.toList.dropLast.length = v.toList.length - 1 :=
    List.length_dropLast v.toList
  rw [hd] at hl
  simp only [List.length_nil] at hl
  have hv : v.toList.length = v.length := rfl
  omega

/-- On a display of at most one character, dropping the last character
leaves the empty string. -/
theorem sliceDropLast_short (v : String) (h : v.length ≤ 1) :
    sliceDropLast v = "" := by
  have hl : v.toList.dropLast.length = v.toList.length - 1 :=
    List.length_dropLast v.toList
  have hv : v.toList.length = v.length := rfl
  have hz : v.toList.dropLast.length = 0 := by omega
  have hnil : v.toList.dropLast = [] := List.eq_nil_of_length_eq_zero hz
  unfold sliceDropLast
  rw [hnil]

/-- C2 counterexample: the on-screen backspace button
(`display.slice(0, -1) || '0'`) applied to the display `"Error"`
yields `"Erro"`, not the `"0"` the claim requires of every backspace
code path. -/
theorem c2_backspace_counterexample :
    (backspaceButton
        { display := "Error", previousValue := none, operation := none,
          waitingForNewValue := false, lastOperation := none,
          lastOperand := none }).display = "Erro" ∧
    ("Erro" : String) ≠ "0" := by
  decide

/-- C2 as amended: the keyboard backspace yields `"0"` on `"0"`, on
`"Error"` and on any one-character display, and strips exactly the
last character otherwise; neither backspace path ever leaves an empty
display; the on-screen button agrees with the keyboard path on every
display except `"Error"`, where it strips the last character and
yields `"Erro"`. -/
theorem c2_backspace_amended :
    (∀ s : CalculatorState,
        s.display = "0" ∨ s.display = "Error" ∨ s.display.length = 1 →
        (backspaceKey s).display = "0") ∧
    (∀ s : CalculatorState, 1 < s.display.length → s.display ≠ "Error" →
        (backspaceKey s).display = sliceDropLast s.display) ∧
    (∀ s : CalculatorState, (backspaceKey s).display ≠ "") ∧
    (∀ s : CalculatorState, (backspaceButton s).display ≠ "") ∧
    (∀ s : CalculatorState, s.display ≠ "Error" →
        (backspaceButton s).display = (backspaceKey s).display) ∧
    (∀ s : CalculatorState, s.display = "Error" →
        (backspaceButton s).display = "Erro") := by
  refine ⟨?_, ?_, ?_, ?_, ?_, ?_⟩
  · intro s h
    unfold backspaceKey
    rcases h with h | h | h
    · have hc : ¬ 1 < ("0" : String).length := by decide
      simp [h, hc]
    · simp [h]
    · have hc : ¬ 1 < s.display.length := by omega
      simp [hc]
  · intro s h1 h2
    simp [backspaceKey, h1, h2]
  · intro s
    unfold backspaceKey
    split
    · next h => exact sliceDropLast_ne_empty s.display h.1
    · show ("0" : String) ≠ ""
      decide
  · intro s
    unfold backspaceButton
    split
    · show ("0" : String) ≠ ""
      decide
    · next h => simpa using h
  · intro s h
    unfold backspaceButton backspaceKey
    by_cases hl : 1 < s.display.length
    · have hne := sliceDropLast_ne_empty s.display hl
      simp [hl, h, hne]
    · have hsh := sliceDropLast_short s.display (by omega)
      simp [hl, hsh]
  · intro s h
    unfold backspaceButton
    rw [h]
    show (if sliceDropLast "Error" = "" then "0" else sliceDropLast "Error") = "Erro"
    decide

/-- Witness for `c2_backspace_amended` at concrete displays `"0"`,
`"12"` and `"Error"`. -/
theorem c2_backspace_amended_witness :
    (backspaceKey
        { display := "0", previousValue := none, operation := none,
          waitingForNewValue := false, lastOperation := none,
          lastOperand := none }).display = "0" ∧
    (backspaceKey
        { display := "12", previousValue := none, operation := none,
          waitingForNewValue := false, lastOperation := none,
          lastOperand := none }).display = "1" ∧
    (backspaceButton
        { display := "Error", previousValue := none, operation := none,
          waitingForNewValue := false, lastOperation := none,
          lastOperand := none }).display = "Erro" := by
  refine ⟨?_, ?_, ?_⟩
  · exact c2_backspace_amended.1
      { display := "0", previousValue := none, operation := none,
        waitingForNewValue := false, lastOperation := none, lastOperand := none }
      (Or.inl rfl)
  · exact (c2_backspace_amended.2.1
      { display := "12", previousValue := none, operation := none,
        waitingForNewValue := false, lastOperation := none, lastOperand := none }
      (by decide) (by decide)).trans (by decide)
  · exact c2_backspace_amended.2.2.2.2.2
      { display := "Error", previousValue := none, operation := none,
        waitingForNewValue := false, lastOperation := none, lastOperand := none }
      rfl

/-- C6: `calculate` takes its right-hand operand from the display:
whenever `performOperation` leaves an operand staged and an operation
pending, the immediately following `calculate` computes with the value
parsed from the display `performOperation` left behind as the
right-hand operand (committing it to `lastOperand`), `"Error"` on the
guarded `÷ 0` case; in particular from a state with no pending
operation and display parsing to `v`, `performOperation` then
`calculate` displays `v <op> v`. -/
theorem c6_reuses_displayed_operand :
    (∀ (s : CalculatorState) (o o2 : Op) (pv : JSNum),
        (performOperation o s).previousValue = some pv →
        (performOperation o s).operation = some o2 →
        calculate (performOperation o s) =
          (if o2 = Op.div ∧ jsParseFloat (performOperation o s).display = some 0 then
            { (performOperation o s) with
                display := "Error",
                previousValue := none,
                operation := none,
                waitingForNewValue := true }
          else
            { (performOperation o s) with
                display := jsNumToString
                  (applyBin o2 pv (jsParseFloat (performOperation o s).display)),
                previousValue := none,
                operation := none,
                waitingForNewValue := true,
                lastOperation := some o2,
                lastOperand := some (jsParseFloat (performOperation o s).display) })) ∧
    (∀ (s : CalculatorState) (o : Op) (v : ℚ),
        s.previousValue = none → jsParseFloat s.display = some v →
        (calculate (performOperation o s)).display =
          if o = Op.div ∧ v = 0 then "Error"
          else jsNumToString (applyBin o (some v) (some v))) := by
  have key : ∀ (t : CalculatorState) (o2 : Op) (pv : JSNum),
      t.previousValue = some pv → t.operation = some o2 →
      calculate t =
        (if o2 = Op.div ∧ jsParseFloat t.display = some 0 then
          { t with
              display := "Error",
              previousValue := none,
              operation := none,
              waitingForNewValue := true }
        else
          { t with
              display := jsNumToString (applyBin o2 pv (jsParseFloat t.display)),
              previousValue := none,
              operation := none,
              waitingForNewValue := true,
              lastOperation := some o2,
              lastOperand := some (jsParseFloat t.display) }) := by
    intro t o2 pv h1 h2
    unfold calculate
    rw [h1, h2]
  constructor
  · intro s o o2 pv h1 h2
    exact key (performOperation o s) o2 pv h1 h2
  · intro s o v h1 h2
    have hstage : performOperation o s =
        { s with previousValue := some (jsParseFloat s.display),
                 operation := some o, waitingForNewValue := true } := by
      simp [performOperation, h1]
    rw [key (performOperation o s) o (some v)
        (by rw [hstage]; simp [h2]) (by rw [hstage])]
    have hdisp : (performOperation o s).display = s.display := by
      rw [hstage]
    rw [hdisp, h2]
    split
    · next hc =>
      obtain ⟨ha, hb⟩ := hc
      obtain rfl : v = 0 := Option.some.inj hb
      simp [ha]
    · next hc =>
      have hn : ¬ (o = Op.div ∧ v = 0) := by
        intro ⟨ha, hb⟩
        exact hc ⟨ha, by rw [hb]⟩
      simp [hn]

/-- Witness for `c6_reuses_displayed_operand`: from display `"3"` with
nothing pending, `+` then `=` displays `"6"`; and the general clause at
the same staged state. -/
theorem c6_reuses_displayed_operand_witness :
    (calculate (performOperation Op.add
        { display := "3", previousValue := none, operation := none,
          waitingForNewValue := false, lastOperation := none,
          lastOperand := none })).display = "6" := by
  have h := c6_reuses_displayed_operand.2
    { display := "3", previousValue := none, operation := none,
      waitingForNewValue := false, lastOperation := none, lastOperand := none }
    Op.add 3 rfl (by decide)
  rw [h]
  decide

/-- A digit key's string is a single digit character, never a decimal
point. -/
theorem dotCount_digitStr : ∀ d : Fin 10, dotCount (digitStr d) = 0 := by
  decide

/-- `dotCount` distributes over string append. -/
theorem dotCount_append (a b : String) :
    dotCount (a ++ b) = dotCount a + dotCount b := by
  unfold dotCount
  rw [show (a ++ b).toList = a.toList ++ b.toList from rfl]
  exact List.count_append _ _ _

/-- Digit entry preserves the at-most-one-decimal-point bound. -/
theorem dotCount_inputNumber (d : Fin 10) (s : CalculatorState)
    (h : dotCount s.display ≤ 1) :
    dotCount (inputNumber (digitStr d) s).display ≤ 1 := by
  unfold inputNumber
  split
  · show dotCount (digitStr d) ≤ 1
    rw [dotCount_digitStr d]
    omega
  · split
    · show dotCount (digitStr d) ≤ 1
      rw [dotCount_digitStr d]
      omega
    · show dotCount (s.display ++ digitStr d) ≤ 1
      rw [dotCount_append, dotCount_digitStr d]
      omega

/-- Decimal-point entry preserves the at-most-one-decimal-point
bound. -/
theorem dotCount_inputDecimal (s : CalculatorState)
    (h : dotCount s.display ≤ 1) :
    dotCount (inputDecimal s).display ≤ 1 := by
  unfold inputDecimal
  split
  · show dotCount "0." ≤ 1
    decide
  · split
    · next hnd =>
      show dotCount (s.display ++ ".") ≤ 1
      rw [dotCount_append]
      have hz : dotCount s.display = 0 := by
        unfold dotCount
        rw [List.count_eq_zero]
        intro hm
        exact hnd (by
          unfold hasDot
          exact List.elem_eq_true_of_mem hm)
      rw [hz]
      decide
    · exact h

/-- C7: across any sequence of digit and decimal-point inputs from the
initial state, the display holds at most one `'.'`; moreover with
`waitingForNewValue` off and a `'.'` already present, a further
decimal-point press is a strict no-op. -/
theorem c7_single_decimal_point :
    (∀ evs : List Ev, (∀ e ∈ evs, (∃ d, e = Ev.digit d) ∨ e = Ev.dec) →
        dotCount (run evs).display ≤ 1) ∧
    (∀ s : CalculatorState, s.waitingForNewValue = false →
        hasDot s.display = true → inputDecimal s = s) := by
  constructor
  · have main : ∀ (evs : List Ev) (s : CalculatorState),
        (∀ e ∈ evs, (∃ d, e = Ev.digit d) ∨ e = Ev.dec) →
        dotCount s.display ≤ 1 →
        dotCount (evs.foldl (fun s e => step e s) s).display ≤ 1 := by
      intro evs
      induction evs with
      | nil =>
        intro s _ h
        simpa using h
      | cons e rest ih =>
        intro s hall h
        rw [List.foldl_cons]
        apply ih
        · intro e' he'
          exact hall e' (List.mem_cons_of_mem e he')
        · rcases hall e (List.mem_cons_self e rest) with ⟨d, rfl⟩ | rfl
          · exact dotCount_inputNumber d s h
          · exact dotCount_inputDecimal s h
    intro evs hall
    exact main evs initialState hall (by decide)
  · intro s h1 h2
    simp [inputDecimal, h1, h2]

/-- Witness for `c7_single_decimal_point`: the sequence `1`, `.`, `2`,
`.`, `3` (and the no-op clause at its resulting state). -/
theorem c7_single_decimal_point_witness :
    dotCount (run [Ev.digit 1, Ev.dec, Ev.digit 2, Ev.dec, Ev.digit 3]).display ≤ 1 ∧
    inputDecimal
        { display := "1.23", previousValue := none, operation := none,
          waitingForNewValue := false, lastOperation := none,
          lastOperand := none } =
      { display := "1.23", previousValue := none, operation := none,
        waitingForNewValue := false, lastOperation := none,
        lastOperand := none } :=
  ⟨c7_single_decimal_point.1 [Ev.digit 1, Ev.dec, Ev.digit 2, Ev.dec, Ev.digit 3]
      (by decide),
    c7_single_decimal_point.2
      { display := "1.23", previousValue := none, operation := none,
        waitingForNewValue := false, lastOperation := none, lastOperand := none }
      rfl (by decide)⟩

/-- Digit entry never touches the repeat registers. -/
theorem inputNumber_last (n : String) (s : CalculatorState) :
    (inputNumber n s).lastOperation = s.lastOperation ∧
    (inputNumber n s).lastOperand = s.lastOperand := by
  unfold inputNumber
  split
  · exact ⟨rfl, rfl⟩
  · split
    · exact ⟨rfl, rfl⟩
    · exact ⟨rfl, rfl⟩

/-- Decimal-point entry never touches the repeat registers. -/
theorem inputDecimal_last (s : CalculatorState) :
    (inputDecimal s).lastOperation = s.lastOperation ∧
    (inputDecimal s).lastOperand = s.lastOperand := by
  unfold inputDecimal
  split
  · exact ⟨rfl, rfl⟩
  · split
    · exact ⟨rfl, rfl⟩
    · exact ⟨rfl, rfl⟩

/-- Keyboard backspace never touches the repeat registers. -/
theorem backspaceKey_last (s : CalculatorState) :
    (backspaceKey s).lastOperation = s.lastOperation ∧
    (backspaceKey s).lastOperand = s.lastOperand := by
  unfold backspaceKey
  split
  · exact ⟨rfl, rfl⟩
  · exact ⟨rfl, rfl⟩

/-- The backspace button never touches the repeat registers. -/
theorem backspaceButton_last (s : CalculatorState) :
    (backspaceButton s).lastOperation = s.lastOperation ∧
    (backspaceButton s).lastOperand = s.lastOperand :=
  ⟨rfl, rfl⟩

/-- An operator press keeps the repeat registers paired: both are
carried over, or both are written by a committing chained
computation. -/
theorem performOperation_last_inv (o : Op) (s : CalculatorState)
    (h : s.lastOperation.isSome = s.lastOperand.isSome) :
    (performOperation o s).lastOperation.isSome =
      (performOperation o s).lastOperand.isSome := by
  simp only [performOperation]
  split
  · exact h
  · split
    · exact h
    · split
      · exact h
      · split
        · exact h
        · rfl

/-- The `=` press keeps the repeat registers paired. -/
theorem calculate_last_inv (s : CalculatorState)
    (h : s.lastOperation.isSome = s.lastOperand.isSome) :
    (calculate s).lastOperation.isSome = (calculate s).lastOperand.isSome := by
  simp only [calculate]
  split
  · split
    · exact h
    · rfl
  · split
    · split
      · exact h
      · exact h
    · exact h

/-- Every input event keeps the repeat registers paired. -/
theorem step_last_inv (e : Ev) (s : CalculatorState)
    (h : s.lastOperation.isSome = s.lastOperand.isSome) :
    (step e s).lastOperation.isSome = (step e s).lastOperand.isSome := by
  cases e with
  | digit d =>
    obtain ⟨h1, h2⟩ := inputNumber_last (digitStr d) s
    show (inputNumber (digitStr d) s).lastOperation.isSome =
      (inputNumber (digitStr d) s).lastOperand.isSome
    rw [h1, h2]
    exact h
  | dec =>
    obtain ⟨h1, h2⟩ := inputDecimal_last s
    show (inputDecimal s).lastOperation.isSome = (inputDecimal s).lastOperand.isSome
    rw [h1, h2]
    exact h
  | opEv o => exact performOperation_last_inv o s h
  | eq => exact calculate_last_inv s h
  | clearEv => rfl
  | backKey =>
    obtain ⟨h1, h2⟩ := backspaceKey_last s
    show (backspaceKey s).lastOperation.isSome = (backspaceKey s).lastOperand.isSome
    rw [h1, h2]
    exact h
  | backBtn =>
    obtain ⟨h1, h2⟩ := backspaceButton_last s
    show (backspaceButton s).lastOperation.isSome = (backspaceButton s).lastOperand.isSome
    rw [h1, h2]
    exact h

/-- C8: in every reachable state `lastOperation` and `lastOperand` are
both present or both absent; digit entry, decimal entry, both backspace
paths, operand staging, operator substitution and the two
division-by-zero error paths leave them unchanged, and `clear` resets
both to absent. -/
theorem c8_last_pair_discipline :
    (∀ evs : List Ev,
        (run evs).lastOperation.isSome = (run evs).lastOperand.isSome) ∧
    (∀ (n : String) (s : CalculatorState),
        (inputNumber n s).lastOperation = s.lastOperation ∧
        (inputNumber n s).lastOperand = s.lastOperand) ∧
    (∀ s : CalculatorState,
        (inputDecimal s).lastOperation = s.lastOperation ∧
        (inputDecimal s).lastOperand = s.lastOperand) ∧
    (∀ s : CalculatorState,
        (backspaceKey s).lastOperation = s.lastOperation ∧
        (backspaceKey s).lastOperand = s.lastOperand) ∧
    (∀ s : CalculatorState,
        (backspaceButton s).lastOperation = s.lastOperation ∧
        (backspaceButton s).lastOperand = s.lastOperand) ∧
    (∀ s : CalculatorState,
        (clear s).lastOperation = none ∧ (clear s).lastOperand = none) ∧
    (∀ (o : Op) (s : CalculatorState), s.previousValue = none →
        (performOperation o s).lastOperation = s.lastOperation ∧
        (performOperation o s).lastOperand = s.lastOperand) ∧
    (∀ (o : Op) (s : CalculatorState) (p : JSNum), s.previousValue = some p →
        s.operation.isSome = true → s.waitingForNewValue = true →
        (performOperation o s).lastOperation = s.lastOperation ∧
        (performOperation o s).lastOperand = s.lastOperand) ∧
    (∀ (o : Op) (s : CalculatorState) (p : JSNum), s.previousValue = some p →
        s.operation = some Op.div → s.waitingForNewValue = false →
        jsParseFloat s.display = some 0 →
        (performOperation o s).lastOperation = s.lastOperation ∧
        (performOperation o s).lastOperand = s.lastOperand) ∧
    (∀ (s : CalculatorState) (p : JSNum), s.previousValue = some p →
        s.operation = some Op.div → jsParseFloat s.display = some 0 →
        (calculate s).lastOperation = s.lastOperation ∧
        (calculate s).lastOperand = s.lastOperand) ∧
    (∀ s : CalculatorState, s.previousValue = none →
        s.lastOperation = some Op.div → s.lastOperand = some (some 0) →
        (calculate s).lastOperation = s.lastOperation ∧
        (calculate s).lastOperand = s.lastOperand) := by
  refine ⟨?_, inputNumber_last, inputDecimal_last, backspaceKey_last,
    backspaceButton_last, fun _ => ⟨rfl, rfl⟩, ?_, ?_, ?_, ?_, ?_⟩
  · have main : ∀ (evs : List Ev) (s : CalculatorState),
        s.lastOperation.isSome = s.lastOperand.isSome →
        (evs.foldl (fun s e => step e s) s).lastOperation.isSome =
          (evs.foldl (fun s e => step e s) s).lastOperand.isSome := by
      intro evs
      induction evs with
      | nil =>
        intro s h
        simpa using h
      | cons e rest ih =>
        intro s h
        rw [List.foldl_cons]
        exact ih (step e s) (step_last_inv e s h)
    intro evs
    exact main evs initialState rfl
  · intro o s h1
    simp [performOperation, h1]
  · intro o s p h1 h2 h3
    simp [performOperation, h1, h2, h3]
  · intro o s p h1 h2 h3 h4
    simp [performOperation, h1, h2, h3, h4]
  · intro s p h1 h2 h3
    simp [calculate, h1, h2, h3]
  · intro s h1 h2 h3
    simp [calculate, h1, h2, h3]

/-- Witness for `c8_last_pair_discipline` at concrete states for each
hypothesis-bearing clause. -/
theorem c8_last_pair_discipline_witness :
    (performOperation Op.add initialState).lastOperation = none ∧
    (performOperation Op.mul
        { display := "5", previousValue := some (some 5), operation := some Op.add,
          waitingForNewValue := true, lastOperation := none,
          lastOperand := none }).lastOperation = none ∧
    (performOperation Op.add
        { display := "0", previousValue := some (some 10), operation := some Op.div,
          waitingForNewValue := false, lastOperation := some Op.add,
          lastOperand := some (some 2) }).lastOperand = some (some 2) ∧
    (calculate
        { display := "0", previousValue := some (some 10), operation := some Op.div,
          waitingForNewValue := false, lastOperation := some Op.add,
          lastOperand := some (some 2) }).lastOperand = some (some 2) ∧
    (calculate
        { display := "7", previousValue := none, operation := none,
          waitingForNewValue := true, lastOperation := some Op.div,
          lastOperand := some (some 0) }).lastOperand = some (some 0) := by
  refine ⟨?_, ?_, ?_, ?_, ?_⟩
  · exact (c8_last_pair_discipline.2.2.2.2.2.2.1 Op.add initialState rfl).1
  · exact (c8_last_pair_discipline.2.2.2.2.2.2.2.1 Op.mul
      { display := "5", previousValue := some (some 5), operation := some Op.add,
        waitingForNewValue := true, lastOperation := none, lastOperand := none }
      (some 5) rfl rfl rfl).1
  · exact (c8_last_pair_discipline.2.2.2.2.2.2.2.2.1 Op.add
      { display := "0", previousValue := some (some 10), operation := some Op.div,
        waitingForNewValue := false, lastOperation := some Op.add,
        lastOperand := some (some 2) }
      (some 10) rfl rfl rfl (by decide)).2
  · exact (c8_last_pair_discipline.2.2.2.2.2.2.2.2.2.1
      { display := "0", previousValue := some (some 10), operation := some Op.div,
        waitingForNewValue := false, lastOperation := some Op.add,
        lastOperand := some (some 2) }
      (some 10) rfl rfl (by decide)).2
  · exact (c8_last_pair_discipline.2.2.2.2.2.2.2.2.2.2
      { display := "7", previousValue := none, operation := none,
        waitingForNewValue := true, lastOperation := some Op.div,
        lastOperand := some (some 0) }
      rfl rfl rfl).2

/-- An operator press never records a zero operand under a recorded
`÷`: the inline `inputValue === 0` guard diverts to the error state
before the registers are written. -/
theorem performOperation_no_div_zero (o : Op) (s : CalculatorState)
    (h : s.lastOperation = some Op.div → s.lastOperand ≠ some (some 0)) :
    (performOperation o s).lastOperation = some Op.div →
      (performOperation o s).lastOperand ≠ some (some 0) := by
  simp only [performOperation]
  split
  · exact h
  · split
    · exact h
    · split
      · exact h
      · split
        · exact h
        · next hguard =>
          intro hq hC
          exact hguard ⟨Option.some.inj hq, Option.some.inj hC⟩

/-- The `=` press never records a zero operand under a recorded `÷`. -/
theorem calculate_no_div_zero (s : CalculatorState)
    (h : s.lastOperation = some Op.div → s.lastOperand ≠ some (some 0)) :
    (calculate s).lastOperation = some Op.div →
      (calculate s).lastOperand ≠ some (some 0) := by
  simp only [calculate]
  split
  · split
    · exact h
    · next hguard =>
      intro hq hC
      exact hguard ⟨Option.some.inj hq, Option.some.inj hC⟩
  · split
    · split
      · exact h
      · exact h
    · exact h

/-- Every input event preserves the no-recorded-division-by-zero
property. -/
theorem step_no_div_zero (e : Ev) (s : CalculatorState)
    (h : s.lastOperation = some Op.div → s.lastOperand ≠ some (some 0)) :
    (step e s).lastOperation = some Op.div →
      (step e s).lastOperand ≠ some (some 0) := by
  cases e with
  | digit d =>
    obtain ⟨h1, h2⟩ := inputNumber_last (digitStr d) s
    show (inputNumber (digitStr d) s).lastOperation = some Op.div →
      (inputNumber (digitStr d) s).lastOperand ≠ some (some 0)
    rw [h1, h2]
    exact h
  | dec =>
    obtain ⟨h1, h2⟩ := inputDecimal_last s
    show (inputDecimal s).lastOperation = some Op.div →
      (inputDecimal s).lastOperand ≠ some (some 0)
    rw [h1, h2]
    exact h
  | opEv o => exact performOperation_no_div_zero o s h
  | eq => exact calculate_no_div_zero s h
  | clearEv =>
    intro hq
    exact absurd hq (by simp [step, clear, initialState])
  | backKey =>
    obtain ⟨h1, h2⟩ := backspaceKey_last s
    show (backspaceKey s).lastOperation = some Op.div →
      (backspaceKey s).lastOperand ≠ some (some 0)
    rw [h1, h2]
    exact h
  | backBtn =>
    obtain ⟨h1, h2⟩ := backspaceButton_last s
    show (backspaceButton s).lastOperation = some Op.div →
      (backspaceButton s).lastOperand ≠ some (some 0)
    rw [h1, h2]
    exact h

/-- C10: in every state reachable from the initial state, a recorded
`lastOperation = ÷` comes with a nonzero `lastOperand` — a division by
zero never commits — so the repeat-division-by-zero guard in
`calculate` (`lastOperand === 0` under a recorded `÷`) can never fire
on a reachable state. -/
theorem c10_no_recorded_division_by_zero (evs : List Ev)
    (h : (run evs).lastOperation = some Op.div) :
    (run evs).lastOperand ≠ some (some 0) := by
  have main : ∀ (l : List Ev) (s : CalculatorState),
      (s.lastOperation = some Op.div → s.lastOperand ≠ some (some 0)) →
      (l.foldl (fun s e => step e s) s).lastOperation = some Op.div →
        (l.foldl (fun s e => step e s) s).lastOperand ≠ some (some 0) := by
    intro l
    induction l with
    | nil =>
      intro s h
      simpa using h
    | cons e rest ih =>
      intro s hs
      rw [List.foldl_cons]
      exact ih (step e s) (step_no_div_zero e s hs)
  exact main evs initialState (by intro hq; exact absurd hq (by simp [initialState])) h

/-- Witness for `c10_no_recorded_division_by_zero`: after `5`, `÷`,
`2`, `=` the recorded operation is `÷` with operand `2 ≠ 0`. -/
theorem c10_no_recorded_division_by_zero_witness :
    (run [Ev.digit 5, Ev.opEv Op.div, Ev.digit 2, Ev.eq]).lastOperation = some Op.div ∧
    (run [Ev.digit 5, Ev.opEv Op.div, Ev.digit 2, Ev.eq]).lastOperand ≠ some (some 0) :=
  ⟨by decide,
    c10_no_recorded_division_by_zero [Ev.digit 5, Ev.opEv Op.div, Ev.digit 2, Ev.eq]
      (by decide)⟩

end Calculator
